import Mathlib

/-!
# Verification of the az-rpms power-management scheduling core

This file gives a shallow embedding, in Lean, of the scheduling decision
engine and power-action state machine of the az-rpms Azure function app
(`functions/helpers.py`, `functions/function_app.py`,
`functions/azure_helpers/util.py`), and proves properties of it.

Modelling conventions:
* Instants are natural numbers of seconds since the Unix epoch (UTC);
  minute-level instants are seconds divided by 60.
* The configured local time zone (`pytz.timezone(timezone_str)`) is modelled
  as a fixed offset of `off` minutes added to UTC.  Python `datetime`
  arithmetic becomes plain `Nat` arithmetic.
* Python strings are Lean `String`s; `str.casefold` is modelled as ASCII
  lowercasing, `split`/`startswith`/`in` are modelled on the underlying
  character lists so that everything reduces inside the kernel.
* The external cron library (`croniter`) is not part of the repository;
  its `get_prev` is modelled from the spec as "the latest occurrence of the
  cron expression at or before the given instant".
-/

namespace AzRpms

/-- Round a number of seconds since the epoch down to a whole minute
(model of `datetime.replace(second=0, microsecond=0)`). -/
def roundDownMinute (s : Nat) : Nat := 60 * (s / 60)

/-! ## Python string primitives -/

/-- Model of Python `str.split("/")`: split on every slash, keeping empty
parts. -/
def splitSlash (s : String) : List String :=
  (s.toList.splitOn '/').map (fun cs => String.mk cs)

/-- Model of Python `str.casefold()` (ASCII lowercasing). -/
def pyCasefold (s : String) : String := String.mk (s.toList.map Char.toLower)

/-- Model of Python `s.startswith(p)`. -/
def pyStartswith (p s : String) : Bool := List.isPrefixOf p.toList s.toList

/-- Does `pat` occur as a contiguous sublist of the character list? -/
def charListHasSub (pat : List Char) : List Char → Bool
  | [] => List.isPrefixOf pat []
  | c :: cs => List.isPrefixOf pat (c :: cs) || charListHasSub pat cs

/-- Model of Python `pat in s` on strings: substring containment. -/
def containsSubstr (pat s : String) : Bool := charListHasSub pat.toList s.toList

/-! ## Calendar arithmetic

`civilFromDays` converts a count of days since 1970-01-01 to a Gregorian
(year, month, day) triple (the standard era-based civil-calendar
computation, all in `Nat`). -/

def civilFromDays (days : Nat) : Nat × Nat × Nat :=
  let z := days + 719468
  let era := z / 146097
  let doe := z % 146097
  let yoe := (doe - doe / 1460 + doe / 36524 - doe / 146096) / 365
  let doy := doe - (365 * yoe + yoe / 4 - yoe / 100)
  let mp := (5 * doy + 2) / 153
  let d := doy - (153 * mp + 2) / 5 + 1
  let m := if mp < 10 then mp + 3 else mp - 9
  let y := yoe + era * 400 + (if m ≤ 2 then 1 else 0)
  (y, m, d)

/-- Minute-of-hour of an instant counted in minutes since the epoch. -/
def minuteOfHour (m : Nat) : Nat := m % 60

/-- Hour-of-day of an instant counted in minutes since the epoch. -/
def hourOfDay (m : Nat) : Nat := (m / 60) % 24

/-- Cron day-of-week (0 = Sunday) of an instant counted in minutes since the
epoch; 1970-01-01 was a Thursday (= 4). -/
def dayOfWeekSun (m : Nat) : Nat := (m / 1440 + 4) % 7

/-- Python `datetime.weekday()` (0 = Monday) of an instant counted in
minutes since the epoch. -/
def weekdayMon (m : Nat) : Nat := (m / 1440 + 3) % 7

/-- Day-of-month of an instant counted in minutes since the epoch. -/
def dayOfMonth (m : Nat) : Nat := (civilFromDays (m / 1440)).2.2

/-- Month (1-12) of an instant counted in minutes since the epoch. -/
def monthOfYear (m : Nat) : Nat := (civilFromDays (m / 1440)).2.1

/-! ## Cron expressions

A five-field cron expression (minute, hour, day-of-month, month,
day-of-week with 0 = Sunday), each field either `*` or an explicit set of
values (lists, ranges and `*/n` steps in the textual form all denote such
sets). -/

inductive CronField where
  | star : CronField
  | values (vs : List Nat) : CronField
deriving DecidableEq, Repr

def CronField.fieldMatches : CronField → Nat → Bool
  | .star, _ => true
  | .values vs, n => vs.contains n

structure Cron where
  minute : CronField
  hour : CronField
  dom : CronField
  month : CronField
  dow : CronField
deriving DecidableEq, Repr

/-- Does the cron expression fire at the instant `m` (in minutes since the
epoch, in the time zone the expression is evaluated in)?  Standard cron
day semantics: when both day-of-month and day-of-week are restricted the
day matches if either does. -/
def Cron.matchesMinute (c : Cron) (m : Nat) : Bool :=
  c.minute.fieldMatches (minuteOfHour m) &&
  c.hour.fieldMatches (hourOfDay m) &&
  c.month.fieldMatches (monthOfYear m) &&
  (match c.dom, c.dow with
   | .star, _ => c.dow.fieldMatches (dayOfWeekSun m)
   | _, .star => c.dom.fieldMatches (dayOfMonth m)
   | _, _ =>
     c.dom.fieldMatches (dayOfMonth m) || c.dow.fieldMatches (dayOfWeekSun m))

/-- The cron occurrence predicate for UTC minute `m` under a local time
zone that is `off` minutes ahead of UTC. -/
def cronOccursAt (c : Cron) (off : Nat) (m : Nat) : Prop :=
  c.matchesMinute (m + off) = true

instance (c : Cron) (off : Nat) : DecidablePred (cronOccursAt c off) := by
  intro m; unfold cronOccursAt; infer_instance

/-- Modelled from the spec: `croniter(cron, now_local).get_prev(datetime)`
followed by conversion back to UTC — "compute `prevOccurrence` = latest
cron occurrence ≤ now in a fixed local time zone".  The result is in
seconds since the epoch (UTC); occurrences sit on whole minutes.  (When no
occurrence at or after the epoch exists the model returns the epoch
itself.) -/
def prevOccurrence (c : Cron) (off : Nat) (now : Nat) : Nat :=
  60 * Nat.findGreatest (cronOccursAt c off) (now / 60)

/-- The effective last-invocation instant used by
`should_process_cron_event`: a missing value is the 1970 epoch, a present
value is rounded down to the whole minute
(`.replace(second=0, microsecond=0)`). -/
def lastInvocationZoned (last_invocation_utc : Option Nat) : Nat :=
  match last_invocation_utc with
  | some t => roundDownMinute t
  | none => 0

/-- Translation of `should_process_cron_event` (`helpers.py`).  Only the
decision logic is modelled (the function also emits a structured log
event, which has no bearing on the returned value).  `last_invocation_utc`,
`now` are in seconds since the epoch; `off` is the local-time-zone offset
in minutes. -/
def should_process_cron_event (last_invocation_utc : Option Nat)
    (cron_event : Cron) (cron_event_override : Option Cron)
    (off : Nat) (now : Nat) : Bool :=
  let last := lastInvocationZoned last_invocation_utc
  let prev_cron_event_zoned := prevOccurrence cron_event off now
  let can_action_event :=
    decide (last ≤ prev_cron_event_zoned) &&
    decide (prev_cron_event_zoned ≤ now)
  match cron_event_override with
  | some ov =>
    if can_action_event then
      let prev_cron_event_exception_zoned := prevOccurrence ov off now
      if !(decide (prev_cron_event_exception_zoned ≤ prev_cron_event_zoned)
            && decide (prev_cron_event_zoned ≤ now)) then
        false
      else
        can_action_event
    else
      can_action_event
  | none => can_action_event

/-! ## Weekday time-grid conversion (`convert_time_schedule_to_cron`)

A slot of the 7-slot weekday grid, as admitted by `TIME_SCHEDULE_PATTERN`:
`-`, `*`, an hour `0..23` or an hour with a minute restricted to
five-minute steps (`[0-5][05]`). -/

inductive ScheduleSlot where
  | dash : ScheduleSlot
  | star : ScheduleSlot
  | time (hour : Nat) (minute : Option Nat) : ScheduleSlot
deriving DecidableEq, Repr

def ScheduleSlot.valid : ScheduleSlot → Bool
  | .dash => true
  | .star => true
  | .time h m =>
    h ≤ 23 &&
    (match m with
     | none => true
     | some mm => mm ≤ 55 && mm % 5 = 0)

/-- Validity of a comma-separated weekday grid, as checked by
`TIME_SCHEDULE_PATTERN`: exactly seven valid slots. -/
def validTimeSchedule (days : List ScheduleSlot) : Bool :=
  days.length = 7 && days.all ScheduleSlot.valid

/-- Translation of `convert_time_schedule_to_cron` (`helpers.py`), over a
grid already split at its commas into `ScheduleSlot`s.  `now` is the
current instant in seconds since the epoch, `off` the local-time-zone
offset in minutes; the current weekday (`datetime.weekday()`, Monday = 0)
is taken in the local time zone.  A slot `-`/`*` yields no cron; a time
slot yields the cron `minute hour * * ((weekday+1) % 7)` (day-of-week with
Sunday = 0); a missing minute defaults to 0. -/
def convert_time_schedule_to_cron (days : List ScheduleSlot)
    (off : Nat) (now : Nat) : Option Cron :=
  if !(validTimeSchedule days) then
    none
  else
    let current_day := weekdayMon (now / 60 + off)
    match days.get? current_day with
    | none => none
    | some .dash => none
    | some .star => none
    | some (.time h m) =>
      some ⟨.values [m.getD 0], .values [h], .star, .star,
        .values [(current_day + 1) % 7]⟩

/-! ## Reserved tag vocabulary and constants (`function_app.py`) -/

def RESOURCE_TAGVAL_START : String := "Auto-started"
def RESOURCE_TAGVAL_STOP : String := "Auto-stopped"
def RESOURCE_TAGVAL_STARTED_FOR_MAINTENANCE : String :=
  "In maintenance window (was stopped)"
def RESOURCE_TAGVAL_IN_MAINTENANCE_STOP_PENDING : String :=
  "In maintenance window (stop pending)"
def RESOURCE_TAGVAL_IN_MAINTENANCE : String := "In maintenance window"
def RESOURCE_TAGVAL_INFO_POST_MAINTENANCE : String :=
  "Maintenance window completed"
def RESOURCE_TAGVAL_STOP_POST_MAINTENANCE : String :=
  "Auto-stopped (post maintenance)"

def RESOURCE_TAGVALS_IN_MAINTENANCE_WINDOW : List String :=
  [RESOURCE_TAGVAL_STARTED_FOR_MAINTENANCE,
   RESOURCE_TAGVAL_IN_MAINTENANCE_STOP_PENDING,
   RESOURCE_TAGVAL_IN_MAINTENANCE]

def RESOURCE_ACTION_START : String := "start"
def RESOURCE_ACTION_START_PRE_UPDATES : String := "start_for_updates"
def RESOURCE_ACTION_STOP : String := "stop"
def RESOURCE_ACTION_STOP_POST_UPDATES : String := "stop_post_updates"

def DEFERRED_CHECK_MAX_RETRIES : Nat := 10

/-! ## Power action state machine (`handle_powermgmt_event_with_deferred_wait`)

The handler's externally visible behaviour on one message, as a pure
function of the observed resource state.  The provider calls (`get`,
`start`, `stop`, `add_tags`, alert suppression, queueing) are external
collaborators; we record which of them the handler invokes. -/

/-- The part of the fetched resource state the handler branches on:
the type-specific pre-state predicates `in_startable_state()` /
`in_stoppable_state()`, the current power-management status tag
(`tags.get(RESOURCE_TAGKEY_POWERMGMT, "")`) and the resource type. -/
structure ResourceView where
  startable : Bool
  stoppable : Bool
  statusTag : String
  resourceType : String
deriving DecidableEq, Repr

/-- The provider-facing effects of one invocation of the handler. -/
structure HandleOutcome where
  /-- `suppress_alerts(True)` was called before acting. -/
  alertsSuppressed : Bool
  /-- `manager.start(...)` was issued. -/
  startCalled : Bool
  /-- `manager.stop(...)` was issued. -/
  stopCalled : Bool
  /-- `some t`: a `DeferredWaitPowerActionCheck` with `tag_text = t` was
  enqueued (a `""` tag text means no outcome tag will be written). -/
  deferredTagText : Option String
  /-- `some v`: `add_tags` was called directly with status text `v`. -/
  tagsWritten : Option String
  /-- The trailing `else` branch raised `AssertionError`. -/
  invalidAction : Bool
deriving DecidableEq, Repr

/-- Translation of `handle_powermgmt_event_with_deferred_wait`
(`function_app.py`): the branch structure on (action, resource pre-state,
status tag, resource type), recording the effects issued.  The
`start`/`stop` provider calls are modelled as always returning a
continuation token (`return_poller=True` path), as in the source. -/
def handle_powermgmt_event_with_deferred_wait (action : String)
    (res : ResourceView) (alertIds : List String) : HandleOutcome :=
  if action == RESOURCE_ACTION_START then
    if res.startable then
      ⟨false, true, false, some RESOURCE_TAGVAL_START, none, false⟩
    else
      ⟨false, false, false, none, none, false⟩
  else if action == RESOURCE_ACTION_START_PRE_UPDATES then
    if res.startable then
      ⟨false, true, false, some RESOURCE_TAGVAL_STARTED_FOR_MAINTENANCE,
        none, false⟩
    else
      ⟨false, false, false, none, some RESOURCE_TAGVAL_IN_MAINTENANCE, false⟩
  else if action == RESOURCE_ACTION_STOP then
    let sup := !alertIds.isEmpty
    if res.stoppable then
      if !(RESOURCE_TAGVALS_IN_MAINTENANCE_WINDOW.contains res.statusTag) then
        if res.resourceType == "microsoft.dbforpostgresql/flexibleservers" then
          ⟨sup, false, true, some "", some RESOURCE_TAGVAL_STOP, false⟩
        else if res.resourceType == "microsoft.network/applicationgateways" then
          ⟨sup, false, true, some "", none, false⟩
        else
          ⟨sup, false, true, some RESOURCE_TAGVAL_STOP, none, false⟩
      else
        ⟨sup, false, false, none,
          some RESOURCE_TAGVAL_IN_MAINTENANCE_STOP_PENDING, false⟩
    else
      ⟨sup, false, false, none, none, false⟩
  else if action == RESOURCE_ACTION_STOP_POST_UPDATES then
    let sup := !alertIds.isEmpty
    if res.stoppable &&
        [RESOURCE_TAGVAL_IN_MAINTENANCE_STOP_PENDING,
         RESOURCE_TAGVAL_STARTED_FOR_MAINTENANCE].contains res.statusTag then
      ⟨sup, false, true, some RESOURCE_TAGVAL_STOP_POST_MAINTENANCE, none,
        false⟩
    else
      ⟨sup, false, false, none,
        some RESOURCE_TAGVAL_INFO_POST_MAINTENANCE, false⟩
  else
    ⟨false, false, false, none, none, true⟩

/-! ## Deferred completion polling (`check_powermgmt_status`) -/

/-- The externally visible outcome of one invocation of
`check_powermgmt_status`. -/
structure CheckOutcome where
  /-- The final value of `result` (the logged outcome):
  `"succeeded"`, `"inprogress"`, `"failed"` or `"timeout"`. -/
  result : String
  /-- The deferred check was re-enqueued for a later poll. -/
  reenqueued : Bool
  /-- The `wait_retries` value after the invocation (carried by the
  re-enqueued message, and logged). -/
  nextWaitRetries : Nat
  /-- `suppress_alerts(False)` was called (alerts re-enabled). -/
  alertsReenabled : Bool
deriving DecidableEq, Repr

/-- Translation of `check_powermgmt_status` (`function_app.py`) as a pure
function.  `poll` is the string the provider poll returns
(`poller.status().casefold()`, e.g. `"succeeded"`/`"inprogress"`; an
`HttpResponseError` during the poll is the same as `poll = "failed"`).
`tagWriteOk` is whether `add_tags_with_retry` reports success when the
pending outcome tag is written. -/
def check_powermgmt_status (action : String) (tagText : String)
    (alertIds : List String) (waitRetries : Nat) (poll : String)
    (tagWriteOk : Bool) : CheckOutcome :=
  let result := poll
  let result :=
    if result == "succeeded" && tagText != "" then
      if tagWriteOk then result else "inprogress"
    else result
  let alertsRe :=
    result == "succeeded" && action == RESOURCE_ACTION_START &&
      !alertIds.isEmpty
  if result == "inprogress" then
    let wr := waitRetries + 1
    if wr < DEFERRED_CHECK_MAX_RETRIES then
      ⟨"inprogress", true, wr, alertsRe⟩
    else
      ⟨"timeout", false, wr, alertsRe⟩
  else
    ⟨result, false, waitRetries, alertsRe⟩

/-! ## Alert condition matcher (`find_matching_alert_ids`, `evaluate_condition`)

Alert conditions come from JSON, so condition expressions are modelled as
JSON-like values; the Python code's dynamic typing (uncaught `TypeError`
on `"allOf" in 5`, uncaught `AttributeError` on `casefold` of a
non-string, `IndexError` on a short resource id) is modelled explicitly,
next to the `UnparsableCondition` exception the code raises and catches
itself. -/

inductive Jx where
  | jbool (b : Bool)
  | jnum (n : Int)
  | jstr (s : String)
  | jarr (xs : List Jx)
  | jobj (kvs : List (String × Jx))

inductive PyExn where
  | unparsable : PyExn
  | typeErr : PyExn
  | attrErr : PyExn
  | indexErr : PyExn
deriving DecidableEq, Repr

/-! Structural size of a JSON value, used as recursion fuel for the
condition evaluator. -/

mutual
def jxSize : Jx → Nat
  | .jbool _ => 1
  | .jnum _ => 1
  | .jstr _ => 1
  | .jarr xs => jxSizeList xs + 1
  | .jobj kvs => jxSizeObj kvs + 1

def jxSizeList : List Jx → Nat
  | [] => 0
  | x :: xs => jxSize x + jxSizeList xs + 1

def jxSizeObj : List (String × Jx) → Nat
  | [] => 0
  | kv :: kvs => jxSize kv.2 + jxSizeObj kvs + 1
end

/-- Model of Python dict lookup `expr.get(k)` (keys of a parsed JSON
object are unique, so first match suffices). -/
def jlookup (kvs : List (String × Jx)) (k : String) : Option Jx :=
  (kvs.find? (fun kv => kv.1 == k)).map (fun kv => kv.2)

/-- Python truthiness of an optional JSON value (`None` is falsy). -/
def pyTruthy : Option Jx → Bool
  | none => false
  | some (.jbool b) => b
  | some (.jnum n) => n != 0
  | some (.jstr s) => s != ""
  | some (.jarr xs) => !xs.isEmpty
  | some (.jobj kvs) => !kvs.isEmpty

/-- Model of `ConditionEvalCriteria` (`helpers.py`). -/
structure ConditionEvalCriteria where
  resource_group : Option String
  resource_type : Option String
  resource_id : Option String
deriving DecidableEq, Repr

/-- Translation of the inner `eval_dict` of `evaluate_condition`
(`helpers.py`): a leaf must be a dict with exactly two keys, both `field`
and `equals` truthy, or `UnparsableCondition` is raised; `equals.casefold()`
on a non-string raises `AttributeError`; both sides of the comparison are
casefolded; an unknown `field` leaves `result = False`. -/
def eval_dict (kvs : List (String × Jx)) (criteria : ConditionEvalCriteria) :
    Except PyExn Bool :=
  let field := jlookup kvs "field"
  let equals := jlookup kvs "equals"
  if kvs.length != 2 || !pyTruthy field || !pyTruthy equals then
    .error .unparsable
  else
    match equals with
    | some (.jstr eq0) =>
      let eqv := pyCasefold eq0
      match field with
      | some (.jstr f) =>
        if f == "resourceGroup" then
          .ok (match criteria.resource_group with
               | some rg => rg != "" && pyCasefold rg == eqv
               | none => false)
        else if f == "resourceId" then
          .ok (match criteria.resource_id with
               | some rid => rid != "" && pyCasefold rid == eqv
               | none => false)
        else if f == "resourceType" then
          .ok (match criteria.resource_type with
               | some rt => rt != "" && pyCasefold rt == eqv
               | none => false)
        else .ok false
      | _ => .ok false
    | _ => .error .attrErr

/-- Evaluation of `evaluate_condition` at a plain string expression: `"allOf" in expr` is a
substring test and a hit leads to `expr["allOf"]`, a `TypeError`;
otherwise the string is not a dict, so `UnparsableCondition` is raised.
(Used directly, and for the elements produced by iterating a string or
the keys produced by iterating a dict.) -/
def evalCondAtomStr (s : String) : Except PyExn Bool :=
  if containsSubstr "allOf" s then .error .typeErr
  else if containsSubstr "anyOf" s then .error .typeErr
  else .error .unparsable

/-- Python `all(...)` over already-evaluated results: first exception or
first `False` wins, empty is `True`. -/
def pyAllExc : List (Except PyExn Bool) → Except PyExn Bool
  | [] => .ok true
  | .error e :: _ => .error e
  | .ok false :: _ => .ok false
  | .ok true :: rs => pyAllExc rs

/-- Python `any(...)` over already-evaluated results: first exception or
first `True` wins, empty is `False`. -/
def pyAnyExc : List (Except PyExn Bool) → Except PyExn Bool
  | [] => .ok false
  | .error e :: _ => .error e
  | .ok true :: _ => .ok true
  | .ok false :: rs => pyAnyExc rs

/-- Does the list contain the given string (Python `k in list`, where only
equal strings compare equal)? -/
def jarrHasStr (xs : List Jx) (k : String) : Bool :=
  xs.any (fun x => match x with | .jstr s => s == k | _ => false)

/-- Fuelled translation of `evaluate_condition` (`helpers.py`).  The fuel
only bounds the recursion depth: every recursive call descends into a
strictly smaller JSON value, so `jxSize expr` fuel never runs out (the
fuel-0 branch is unreachable from `evaluate_condition`).  Branch order
follows the source: `isinstance(expr, bool)`, then `"allOf" in expr`,
then `"anyOf" in expr`, then `isinstance(expr, dict)`, else raise
`UnparsableCondition`; `in` on a non-iterable (a number) raises
`TypeError`, as does indexing a string or a list with `"allOf"`, or
iterating a non-iterable combinator value. -/
def evalCondFuel : Nat → Jx → ConditionEvalCriteria → Except PyExn Bool
  | 0, _, _ => .error .typeErr
  | _ + 1, .jbool b, _ => .ok b
  | _ + 1, .jnum _, _ => .error .typeErr
  | _ + 1, .jstr s, _ => evalCondAtomStr s
  | _ + 1, .jarr xs, _ =>
    if jarrHasStr xs "allOf" then .error .typeErr
    else if jarrHasStr xs "anyOf" then .error .typeErr
    else .error .unparsable
  | n + 1, .jobj kvs, criteria =>
    if kvs.any (fun kv => kv.1 == "allOf") then
      match jlookup kvs "allOf" with
      | some (.jarr subs) =>
        pyAllExc (subs.map (fun sub => evalCondFuel n sub criteria))
      | some (.jobj kvs2) =>
        pyAllExc (kvs2.map (fun kv => evalCondAtomStr kv.1))
      | some (.jstr s) =>
        pyAllExc (s.toList.map (fun ch => evalCondAtomStr (String.mk [ch])))
      | _ => .error .typeErr
    else if kvs.any (fun kv => kv.1 == "anyOf") then
      match jlookup kvs "anyOf" with
      | some (.jarr subs) =>
        pyAnyExc (subs.map (fun sub => evalCondFuel n sub criteria))
      | some (.jobj kvs2) =>
        pyAnyExc (kvs2.map (fun kv => evalCondAtomStr kv.1))
      | some (.jstr s) =>
        pyAnyExc (s.toList.map (fun ch => evalCondAtomStr (String.mk [ch])))
      | _ => .error .typeErr
    else eval_dict kvs criteria

/-- Translation of `evaluate_condition` (`helpers.py`). -/
def evaluate_condition (expr : Jx) (criteria : ConditionEvalCriteria) :
    Except PyExn Bool :=
  evalCondFuel (jxSize expr) expr criteria

/-- The fields of an alert rule (`ResourceGraphItem`) that the matcher
reads: `alert.id`, `properties["scopes"]`, `properties["condition"]`. -/
structure AlertRule where
  id : String
  scopes : List String
  condition : Option Jx

/-- The inner `scope_matches` of `find_matching_alert_ids` (`helpers.py`):
the casefolded resource id must start with one of the scopes (the scope
itself is compared as-is). -/
def scope_matches (resource_id : String) (alert : AlertRule) : Bool :=
  alert.scopes.any (fun scope => pyStartswith scope (pyCasefold resource_id))

/-- The inner `condition_matches` of `find_matching_alert_ids`
(`helpers.py`): no condition means match; otherwise evaluate it against
criteria built from `resource_id.split("/")[4]`, the id and the given
type.  Only `UnparsableCondition` is caught (as a non-match); every other
exception propagates. -/
def condition_matches (resource_id resource_type : String)
    (alert : AlertRule) : Except PyExn Bool :=
  match alert.condition with
  | none => .ok true
  | some expr =>
    match (splitSlash resource_id).get? 4 with
    | none => .error .indexErr
    | some rg =>
      match evaluate_condition expr
          ⟨some rg, some resource_type, some resource_id⟩ with
      | .ok b => .ok b
      | .error .unparsable => .ok false
      | .error e => .error e

/-- Translation of `find_matching_alert_ids` (`helpers.py`): the ids of
the alerts whose scope matches and whose condition matches, in order; an
uncaught exception from any alert aborts the whole list comprehension. -/
def find_matching_alert_ids (all_alerts : List AlertRule)
    (resource_id resource_type : String) : Except PyExn (List String) :=
  match all_alerts with
  | [] => .ok []
  | alert :: rest =>
    if scope_matches resource_id alert then
      match condition_matches resource_id resource_type alert with
      | .error e => .error e
      | .ok b =>
        match find_matching_alert_ids rest resource_id resource_type with
        | .error e => .error e
        | .ok ids => .ok (if b then alert.id :: ids else ids)
    else
      find_matching_alert_ids rest resource_id resource_type

/-! ## Resource id decoding (`decode_resource_id`, `get_resource_type`) -/

structure DecodedResourceId where
  sub_id : String
  resource_group : String
  type : String
  name : String
deriving DecidableEq, Repr

/-- Translation of `decode_resource_id` (`helpers.py`):
`split[2]`, `split[4]`, `"/".join(split[6:7])` and `split[8]` of the
slash-split id (an out-of-range index raises `IndexError`; the slice
`[6:7]` never does). -/
def decode_resource_id (resource_id : String) :
    Except PyExn DecodedResourceId :=
  let split := splitSlash resource_id
  match split.get? 2 with
  | none => .error .indexErr
  | some sub_id =>
    match split.get? 4 with
    | none => .error .indexErr
    | some rg =>
      let ty := String.intercalate "/" ((split.drop 6).take 1)
      match split.get? 8 with
      | none => .error .indexErr
      | some name => .ok ⟨sub_id, rg, ty, name⟩

/-- Translation of `get_resource_type` (`azure_helpers/util.py`):
`re.search(r"/providers/(.+?)/[^/]+$", resource_id)`, i.e. everything
between the first `providers` segment (that admits a match) and the final
segment, casefolded; `None` when the pattern does not match.  The
non-greedy group runs to the last slash of the id, must be non-empty, and
the final segment must be non-empty. -/
def get_resource_type (resource_id : String) : Option String :=
  let parts := splitSlash resource_id
  let n := parts.length
  let group := fun p => String.intercalate "/" ((parts.drop (p + 1)).take (n - p - 2))
  let candidate := (List.range n).find? (fun p =>
    decide (1 ≤ p) && (parts.get? p == some "providers") &&
    decide (p + 3 ≤ n) && (parts.getLast? != some "") &&
    (group p != ""))
  match candidate with
  | none => none
  | some p => some (pyCasefold (group p))

/-! ## Maintenance-event handling (`process_updatemgmt_event`) -/

structure UpdateMgmtDecision where
  enqueuedAction : Option String
  alertResourceType : Option String
deriving DecidableEq, Repr

/-- Per-resource decision kernel of `process_updatemgmt_event`
(`function_app.py`): which power action is enqueued for one discovered
resource, and which resource-type string is passed to
`find_matching_alert_ids` — namely `details.get("type")` from
`decode_resource_id`.  `statusTag` is `vm.tags.get(RESOURCE_TAGKEY_POWERMGMT, "")`;
the post-maintenance branch tests the "started for maintenance" value by
substring (`in`). -/
def updatemgmt_decide (resourceId : String) (isPreMaintenance : Bool)
    (exempt : Bool) (statusTag : String) : Except PyExn UpdateMgmtDecision :=
  match decode_resource_id resourceId with
  | .error e => .error e
  | .ok details =>
    if exempt then .ok ⟨none, none⟩
    else if isPreMaintenance then
      .ok ⟨some RESOURCE_ACTION_START_PRE_UPDATES, some details.type⟩
    else if containsSubstr RESOURCE_TAGVAL_STARTED_FOR_MAINTENANCE statusTag then
      .ok ⟨some RESOURCE_ACTION_STOP_POST_UPDATES, some details.type⟩
    else .ok ⟨none, none⟩

/-! ## Helper lemmas -/

/-- Closed form of one `check_powermgmt_status` invocation whose poll
comes back `"inprogress"`. -/
theorem check_powermgmt_status_inprogress_poll (action tagText : String)
    (alertIds : List String) (r : Nat) (tagWriteOk : Bool) :
    check_powermgmt_status action tagText alertIds r "inprogress" tagWriteOk =
      if r + 1 < DEFERRED_CHECK_MAX_RETRIES then
        ⟨"inprogress", true, r + 1, false⟩
      else
        ⟨"timeout", false, r + 1, false⟩ := by
  simp [check_powermgmt_status]

/-! ## C2: deferred-check retry bound -/

/-- C2 (counterexample): with the retry counter at 9 — i.e. at the tenth
evaluation after nine consecutive in-progress polls were re-enqueued —
another in-progress poll already yields the terminal `"timeout"` outcome
and is NOT re-enqueued.  Hence under all-in-progress polls the timeout
happens at the 10th evaluation (the 10th in-progress poll), and the
claimed 11th evaluation never takes place. -/
theorem c2_counterexample :
    (check_powermgmt_status RESOURCE_ACTION_STOP "" [] 9 "inprogress"
      true).result = "timeout" ∧
    (check_powermgmt_status RESOURCE_ACTION_STOP "" [] 9 "inprogress"
      true).reenqueued = false ∧
    (check_powermgmt_status RESOURCE_ACTION_STOP "" [] 9 "inprogress"
      true).nextWaitRetries = 10 := by
  exact ⟨rfl, rfl, rfl⟩

/-- C2 (amended): starting from retry counter 0 with every poll
in-progress, the k-th evaluation (incoming counter k-1) re-enqueues with
outcome `"inprogress"` for k ≤ 9, and the 10th evaluation yields the
terminal `"timeout"` outcome with no re-enqueue; in general a poll
re-enqueues exactly when the incremented retry counter is still below the
bound of 10. -/
theorem c2_deferred_check_retry_bound (action tagText : String)
    (alertIds : List String) (tagWriteOk : Bool) (k : Nat) (hk : 1 ≤ k) :
    (k ≤ 9 →
      (check_powermgmt_status action tagText alertIds (k - 1) "inprogress"
        tagWriteOk).reenqueued = true ∧
      (check_powermgmt_status action tagText alertIds (k - 1) "inprogress"
        tagWriteOk).result = "inprogress" ∧
      (check_powermgmt_status action tagText alertIds (k - 1) "inprogress"
        tagWriteOk).nextWaitRetries = k) ∧
    (k = 10 →
      (check_powermgmt_status action tagText alertIds (k - 1) "inprogress"
        tagWriteOk).result = "timeout" ∧
      (check_powermgmt_status action tagText alertIds (k - 1) "inprogress"
        tagWriteOk).reenqueued = false) ∧
    (∀ r, (check_powermgmt_status action tagText alertIds r "inprogress"
        tagWriteOk).reenqueued =
      decide (r + 1 < DEFERRED_CHECK_MAX_RETRIES)) := by
  refine ⟨fun h9 => ?_, fun h10 => ?_, fun r => ?_⟩
  · rw [check_powermgmt_status_inprogress_poll]
    have : k - 1 + 1 < DEFERRED_CHECK_MAX_RETRIES := by
      unfold DEFERRED_CHECK_MAX_RETRIES; omega
    simp [this]
    omega
  · subst h10
    rw [check_powermgmt_status_inprogress_poll]
    simp [DEFERRED_CHECK_MAX_RETRIES]
  · rw [check_powermgmt_status_inprogress_poll]
    by_cases h : r + 1 < DEFERRED_CHECK_MAX_RETRIES <;> simp [h]

/-- Witness for C2: the 5th evaluation (incoming counter 4) of an
all-in-progress deferred check re-enqueues with outcome `"inprogress"`. -/
theorem c2_witness :
    (check_powermgmt_status RESOURCE_ACTION_STOP "" [] 4 "inprogress"
      true).reenqueued = true ∧
    (check_powermgmt_status RESOURCE_ACTION_STOP "" [] 4 "inprogress"
      true).result = "inprogress" := by
  have h := c2_deferred_check_retry_bound RESOURCE_ACTION_STOP "" [] true 5
    (by decide)
  exact ⟨(h.1 (by decide)).1, (h.1 (by decide)).2.1⟩

/-! ## C5: stop defers to the maintenance window -/

/-- C5: for a `stop` action on a resource in a stoppable pre-state, if the
power-management status tag is one of the three maintenance-window values
no stop is issued and the resource is tagged "stop pending" instead, and
the stop call is issued exactly when the status tag is not a
maintenance-window value. -/
theorem c5_stop_respects_maintenance_window (res : ResourceView)
    (alertIds : List String) (hstop : res.stoppable = true) :
    (RESOURCE_TAGVALS_IN_MAINTENANCE_WINDOW.contains res.statusTag = true →
      (handle_powermgmt_event_with_deferred_wait RESOURCE_ACTION_STOP res
        alertIds).stopCalled = false ∧
      (handle_powermgmt_event_with_deferred_wait RESOURCE_ACTION_STOP res
        alertIds).tagsWritten =
        some RESOURCE_TAGVAL_IN_MAINTENANCE_STOP_PENDING ∧
      (handle_powermgmt_event_with_deferred_wait RESOURCE_ACTION_STOP res
        alertIds).deferredTagText = none) ∧
    ((handle_powermgmt_event_with_deferred_wait RESOURCE_ACTION_STOP res
        alertIds).stopCalled = true ↔
      RESOURCE_TAGVALS_IN_MAINTENANCE_WINDOW.contains res.statusTag =
        false) := by
  unfold handle_powermgmt_event_with_deferred_wait
  simp only [RESOURCE_ACTION_STOP, RESOURCE_ACTION_START,
    RESOURCE_ACTION_START_PRE_UPDATES]
  rw [hstop]
  by_cases hm : res.statusTag ∈ RESOURCE_TAGVALS_IN_MAINTENANCE_WINDOW
  · have hc : RESOURCE_TAGVALS_IN_MAINTENANCE_WINDOW.contains res.statusTag =
        true := List.elem_iff.mpr hm
    simp [hm, hc]
  · have hc : RESOURCE_TAGVALS_IN_MAINTENANCE_WINDOW.contains res.statusTag =
        false := by
      rw [Bool.eq_false_iff]
      exact fun h => hm (List.elem_iff.mp h)
    simp only [hm, hc]
    split_ifs <;> simp_all

/-- Witness for C5: a stoppable resource tagged "In maintenance window" is
not stopped and gets the "stop pending" tag. -/
theorem c5_witness :
    (handle_powermgmt_event_with_deferred_wait RESOURCE_ACTION_STOP
      ⟨false, true, RESOURCE_TAGVAL_IN_MAINTENANCE,
        "microsoft.compute/virtualmachines"⟩ []).stopCalled = false ∧
    (handle_powermgmt_event_with_deferred_wait RESOURCE_ACTION_STOP
      ⟨false, true, RESOURCE_TAGVAL_IN_MAINTENANCE,
        "microsoft.compute/virtualmachines"⟩ []).tagsWritten =
      some RESOURCE_TAGVAL_IN_MAINTENANCE_STOP_PENDING := by
  have h := c5_stop_respects_maintenance_window
    ⟨false, true, RESOURCE_TAGVAL_IN_MAINTENANCE,
      "microsoft.compute/virtualmachines"⟩ [] rfl
  exact ⟨(h.1 (by decide)).1, (h.1 (by decide)).2.1⟩

/-! ## C6: stop_post_updates eligibility -/

/-- C6: for a `stop_post_updates` action, a stop call is issued iff the
resource is in a stoppable pre-state and its status tag equals "stop
pending" or "started for maintenance"; in every other case no stop is
issued and only the informational "maintenance window completed" tag is
written (no deferred check is enqueued). -/
theorem c6_stop_post_updates_eligibility (res : ResourceView)
    (alertIds : List String) :
    ((handle_powermgmt_event_with_deferred_wait
        RESOURCE_ACTION_STOP_POST_UPDATES res alertIds).stopCalled = true ↔
      (res.stoppable = true ∧
        (res.statusTag = RESOURCE_TAGVAL_IN_MAINTENANCE_STOP_PENDING ∨
         res.statusTag = RESOURCE_TAGVAL_STARTED_FOR_MAINTENANCE))) ∧
    ((handle_powermgmt_event_with_deferred_wait
        RESOURCE_ACTION_STOP_POST_UPDATES res alertIds).stopCalled = false →
      (handle_powermgmt_event_with_deferred_wait
        RESOURCE_ACTION_STOP_POST_UPDATES res alertIds).tagsWritten =
        some RESOURCE_TAGVAL_INFO_POST_MAINTENANCE ∧
      (handle_powermgmt_event_with_deferred_wait
        RESOURCE_ACTION_STOP_POST_UPDATES res alertIds).deferredTagText =
        none) := by
  unfold handle_powermgmt_event_with_deferred_wait
  simp only [RESOURCE_ACTION_STOP_POST_UPDATES, RESOURCE_ACTION_START,
    RESOURCE_ACTION_START_PRE_UPDATES, RESOURCE_ACTION_STOP]
  by_cases hs : res.stoppable = true <;>
    by_cases hor :
      (res.statusTag = RESOURCE_TAGVAL_IN_MAINTENANCE_STOP_PENDING ∨
       res.statusTag = RESOURCE_TAGVAL_STARTED_FOR_MAINTENANCE) <;>
    simp [hs, hor]

/-- Witness for C6: a stoppable resource tagged "stop pending" is stopped
by `stop_post_updates`. -/
theorem c6_witness :
    (handle_powermgmt_event_with_deferred_wait
      RESOURCE_ACTION_STOP_POST_UPDATES
      ⟨false, true, RESOURCE_TAGVAL_IN_MAINTENANCE_STOP_PENDING,
        "microsoft.compute/virtualmachines"⟩ []).stopCalled = true := by
  exact (c6_stop_post_updates_eligibility
    ⟨false, true, RESOURCE_TAGVAL_IN_MAINTENANCE_STOP_PENDING,
      "microsoft.compute/virtualmachines"⟩ []).1.mpr ⟨rfl, Or.inl rfl⟩

/-! ## C7: tag-write failure downgrades to in-progress -/

/-- C7: when the poll succeeds, a pending outcome tag is non-empty and the
tag write fails, the invocation behaves exactly like an in-progress poll
(the outcome is downgraded rather than the audit tag being lost), in
particular it is re-enqueued while the retry bound allows; and alerts are
re-enabled only when the final outcome is `"succeeded"`, the action is
`start`, and alert ids were correlated. -/
theorem c7_tag_write_failure_downgrades (action tagText : String)
    (alertIds : List String) (r : Nat) (h : tagText ≠ "") :
    (check_powermgmt_status action tagText alertIds r "succeeded" false =
      check_powermgmt_status action tagText alertIds r "inprogress" false) ∧
    (r + 1 < DEFERRED_CHECK_MAX_RETRIES →
      (check_powermgmt_status action tagText alertIds r "succeeded"
        false).reenqueued = true ∧
      (check_powermgmt_status action tagText alertIds r "succeeded"
        false).result = "inprogress") ∧
    (∀ (a t : String) (al : List String) (r' : Nat) (p : String) (ok : Bool),
      (check_powermgmt_status a t al r' p ok).alertsReenabled = true →
      (check_powermgmt_status a t al r' p ok).result = "succeeded" ∧
      a = RESOURCE_ACTION_START ∧ al ≠ []) := by
  have hb : (tagText != "") = true := by simpa using h
  have hdown : check_powermgmt_status action tagText alertIds r "succeeded"
      false = check_powermgmt_status action tagText alertIds r "inprogress"
      false := by
    simp [check_powermgmt_status, hb]
  refine ⟨hdown, fun hlt => ?_, fun a t al r' p ok halert => ?_⟩
  · rw [hdown, check_powermgmt_status_inprogress_poll]
    simp [hlt]
  · simp only [check_powermgmt_status] at halert ⊢
    set R := (if (p == "succeeded" && t != "") = true then
      if ok = true then p else "inprogress" else p) with hR
    by_cases hp : (R == "inprogress") = true
    · exfalso
      rw [if_pos hp] at halert
      simp only [beq_iff_eq] at hp
      by_cases hw : r' + 1 < DEFERRED_CHECK_MAX_RETRIES
      · rw [if_pos hw] at halert
        rw [hp] at halert
        simp at halert
      · rw [if_neg hw] at halert
        rw [hp] at halert
        simp at halert
    · rw [if_neg hp] at halert ⊢
      simp only [Bool.and_eq_true, beq_iff_eq] at halert
      obtain ⟨⟨h1, h2⟩, h3⟩ := halert
      refine ⟨h1, h2, fun hnil => ?_⟩
      subst hnil
      simp at h3

/-- Witness for C7: a succeeded stop poll whose "Auto-stopped" tag write
fails is downgraded and re-enqueued. -/
theorem c7_witness :
    (check_powermgmt_status RESOURCE_ACTION_STOP RESOURCE_TAGVAL_STOP [] 0
      "succeeded" false).result = "inprogress" ∧
    (check_powermgmt_status RESOURCE_ACTION_STOP RESOURCE_TAGVAL_STOP [] 0
      "succeeded" false).reenqueued = true := by
  have h := c7_tag_write_failure_downgrades RESOURCE_ACTION_STOP
    RESOURCE_TAGVAL_STOP [] 0 (by decide)
  exact ⟨(h.2.1 (by decide)).2, (h.2.1 (by decide)).1⟩

/-! ## C1: fire iff lastCheck ≤ prevOccurrence ≤ now -/

/-- C1: with no opposing cron, `should_process_cron_event` returns true
iff `lastCheck ≤ prevOccurrence ≤ now`, where the last check is rounded
down to the whole minute (a missing one is the epoch) and
`prevOccurrence` is the latest occurrence of the cron expression at or
before `now` in the configured local time zone (first conjunct: it is a
whole-minute occurrence, at most `now`, and no later occurrence at or
before `now` exists); once the last check has advanced strictly past
`prevOccurrence`, the same occurrence never fires again (last
conjunct). -/
theorem c1_should_fire_iff (last : Option Nat) (c : Cron) (off now : Nat)
    (hex : ∃ m, m ≤ now / 60 ∧ cronOccursAt c off m) :
    (cronOccursAt c off (prevOccurrence c off now / 60) ∧
     prevOccurrence c off now % 60 = 0 ∧
     prevOccurrence c off now ≤ now ∧
     (∀ s, s ≤ now → s % 60 = 0 → cronOccursAt c off (s / 60) →
       s ≤ prevOccurrence c off now)) ∧
    (should_process_cron_event last c none off now = true ↔
      (lastInvocationZoned last ≤ prevOccurrence c off now ∧
       prevOccurrence c off now ≤ now)) ∧
    (prevOccurrence c off now < lastInvocationZoned last →
      should_process_cron_event last c none off now = false) := by
  obtain ⟨m, hm, hp⟩ := hex
  have hfg : cronOccursAt c off
      (Nat.findGreatest (cronOccursAt c off) (now / 60)) :=
    Nat.findGreatest_spec hm hp
  have hfgle : Nat.findGreatest (cronOccursAt c off) (now / 60) ≤ now / 60 :=
    Nat.findGreatest_le _
  have hdiv : prevOccurrence c off now / 60 =
      Nat.findGreatest (cronOccursAt c off) (now / 60) := by
    unfold prevOccurrence
    exact Nat.mul_div_cancel_left _ (by norm_num)
  have hlenow : prevOccurrence c off now ≤ now := by
    unfold prevOccurrence
    calc 60 * Nat.findGreatest (cronOccursAt c off) (now / 60)
        ≤ 60 * (now / 60) := Nat.mul_le_mul_left 60 hfgle
      _ ≤ now := by rw [Nat.mul_comm]; exact Nat.div_mul_le_self now 60
  have hiff : should_process_cron_event last c none off now = true ↔
      (lastInvocationZoned last ≤ prevOccurrence c off now ∧
       prevOccurrence c off now ≤ now) := by
    simp [should_process_cron_event, Bool.and_eq_true, decide_eq_true_eq]
  refine ⟨⟨?_, ?_, hlenow, ?_⟩, hiff, ?_⟩
  · rw [hdiv]; exact hfg
  · unfold prevOccurrence; exact Nat.mul_mod_right 60 _
  · intro s hsnow hsmod hsocc
    have h1 : s / 60 ≤ now / 60 := Nat.div_le_div_right hsnow
    have h2 : s / 60 ≤ Nat.findGreatest (cronOccursAt c off) (now / 60) :=
      Nat.le_findGreatest h1 hsocc
    have h3 : s / 60 * 60 = s :=
      Nat.div_mul_cancel (Nat.dvd_of_mod_eq_zero hsmod)
    unfold prevOccurrence
    calc s = s / 60 * 60 := h3.symm
      _ ≤ Nat.findGreatest (cronOccursAt c off) (now / 60) * 60 :=
        Nat.mul_le_mul_right 60 h2
      _ = 60 * Nat.findGreatest (cronOccursAt c off) (now / 60) :=
        Nat.mul_comm _ _
  · intro hlt
    by_cases hb : should_process_cron_event last c none off now = true
    · exact absurd (hiff.mp hb).1 (by omega)
    · exact Bool.not_eq_true _ ▸ Bool.eq_false_iff.mpr hb

/-- Witness for C1: a cron firing every minute, `now` = 125 s after the
epoch, last check 119 s: the latest occurrence is 120 s, the rounded last
check is 60 s, so the event fires. -/
theorem c1_witness :
    should_process_cron_event (some 119)
      ⟨.star, .star, .star, .star, .star⟩ none 0 125 = true := by
  exact (c1_should_fire_iff (some 119) ⟨.star, .star, .star, .star, .star⟩
    0 125 ⟨0, by decide, by decide⟩).2.1.mpr (by decide)

/-! ## C3: opposing-cron suppression -/

/-- C3: when the event would fire (its latest occurrence lies between the
rounded last check and `now`) and an opposing cron is supplied, the firing
is suppressed exactly when the opposing cron's latest occurrence at or
before `now` is strictly later than the event's. -/
theorem c3_opposing_cron_suppression (last : Option Nat) (c ov : Cron)
    (off now : Nat)
    (hfire : lastInvocationZoned last ≤ prevOccurrence c off now ∧
      prevOccurrence c off now ≤ now) :
    (prevOccurrence c off now < prevOccurrence ov off now →
      should_process_cron_event last c (some ov) off now = false) ∧
    (prevOccurrence ov off now ≤ prevOccurrence c off now →
      should_process_cron_event last c (some ov) off now = true) := by
  constructor
  · intro hlt
    have hno : ¬ (prevOccurrence ov off now ≤ prevOccurrence c off now) := by
      omega
    simp [should_process_cron_event, hfire.1, hfire.2, hno]
  · intro hle
    simp [should_process_cron_event, hfire.1, hfire.2, hle]

/-- Witness for C3: an event cron firing at minute 1 of each hour (latest
occurrence 60 s) against an opposing cron firing every minute (latest
occurrence 120 s > 60 s), `now` = 125 s: the firing is suppressed. -/
theorem c3_witness :
    should_process_cron_event none ⟨.values [1], .star, .star, .star, .star⟩
      (some ⟨.star, .star, .star, .star, .star⟩) 0 125 = false := by
  exact (c3_opposing_cron_suppression none
    ⟨.values [1], .star, .star, .star, .star⟩
    ⟨.star, .star, .star, .star, .star⟩ 0 125 (by decide)).1 (by decide)

/-! ## C4: weekday grid to cron -/

/-- C4: on a valid weekday grid, the slot of the current weekday (Monday =
0, in the local time zone) determines the conversion: `-`/`*` give no
cron, and a time slot `hour:minute` gives the cron
`minute hour * * ((d+1) % 7)` (a missing minute is 0), which fires exactly
at that minute, hour and weekday; the Sunday = 0 day-of-week value
`(d+1) % 7` picks out exactly the Monday-based current weekday `d` (last
conjunct). -/
theorem c4_time_grid_conversion (days : List ScheduleSlot) (off now : Nat)
    (hv : validTimeSchedule days = true) (slot : ScheduleSlot)
    (hslot : days.get? (weekdayMon (now / 60 + off)) = some slot) :
    ((slot = .dash ∨ slot = .star) →
      convert_time_schedule_to_cron days off now = none) ∧
    (∀ (h : Nat) (m : Option Nat), slot = .time h m →
      convert_time_schedule_to_cron days off now =
        some ⟨.values [m.getD 0], .values [h], .star, .star,
          .values [(weekdayMon (now / 60 + off) + 1) % 7]⟩ ∧
      (∀ t : Nat,
        Cron.matchesMinute
          ⟨.values [m.getD 0], .values [h], .star, .star,
            .values [(weekdayMon (now / 60 + off) + 1) % 7]⟩ t = true ↔
        (minuteOfHour t = m.getD 0 ∧ hourOfDay t = h ∧
         dayOfWeekSun t = (weekdayMon (now / 60 + off) + 1) % 7)) ∧
      (∀ t : Nat,
        dayOfWeekSun t = (weekdayMon (now / 60 + off) + 1) % 7 ↔
        weekdayMon t = weekdayMon (now / 60 + off))) := by
  rw [List.get?_eq_getElem?] at hslot
  constructor
  · rintro (rfl | rfl) <;> simp [convert_time_schedule_to_cron, hv, hslot]
  · rintro h m rfl
    refine ⟨?_, ?_, ?_⟩
    · simp [convert_time_schedule_to_cron, hv, hslot]
    · intro t
      simp [Cron.matchesMinute, CronField.fieldMatches, List.elem_iff,
        Bool.and_eq_true]
      tauto
    · intro t
      unfold dayOfWeekSun weekdayMon
      omega

/-- Witness for C4: on the Thursday of the epoch (weekday 3), the grid
`-,*,8,18:30,-,-,-` converts to the cron `30 18 * * 4`. -/
theorem c4_witness :
    convert_time_schedule_to_cron
      [.dash, .star, .time 8 none, .time 18 (some 30), .dash, .dash, .dash]
      0 0 =
    some ⟨.values [30], .values [18], .star, .star, .values [4]⟩ := by
  exact ((c4_time_grid_conversion
    [.dash, .star, .time 8 none, .time 18 (some 30), .dash, .dash, .dash]
    0 0 (by decide) (.time 18 (some 30)) (by decide)).2 18 (some 30)
    rfl).1

/-! ## C8: alert matching -/

/-- The matching rule exactly as C8 words it (for comparison with the
source's `find_matching_alert_ids`): an alert matches iff the resource id
case-insensitively starts with one of its scopes — i.e. BOTH sides
casefolded — and its condition, when present, evaluates to true. -/
def claimC8_matching_alert_ids (all_alerts : List AlertRule)
    (resource_id resource_type : String) : List String :=
  (all_alerts.filter (fun alert =>
    alert.scopes.any (fun scope =>
      pyStartswith (pyCasefold scope) (pyCasefold resource_id)) &&
    (match alert.condition with
     | none => true
     | some expr =>
       match (splitSlash resource_id).get? 4 with
       | none => false
       | some rg =>
         match evaluate_condition expr
             ⟨some rg, some resource_type, some resource_id⟩ with
         | .ok true => true
         | _ => false))).map (fun alert => alert.id)

/-- C8 (counterexample): an alert whose only scope is `"X"` against
resource id `"x123"`: under the claim's fully case-insensitive matching
the alert matches, but the source lowercases only the resource id and
leaves the scope as-is, so it returns no match. -/
theorem c8_counterexample :
    claimC8_matching_alert_ids [⟨"a1", ["X"], none⟩] "x123" "t" = ["a1"] ∧
    find_matching_alert_ids [⟨"a1", ["X"], none⟩] "x123" "t" =
      .ok [] := by
  exact ⟨rfl, rfl⟩

/-- C8 (amended): whenever `find_matching_alert_ids` completes without an
uncaught exception, the returned ids are exactly those of the alerts for
which (a) the CASEFOLDED resource id starts with one of the alert's
scopes taken verbatim (the scope itself is not casefolded), and (b) the
condition check reports a match (no condition, or the condition tree —
whose field/equals leaves compare casefolded on both sides — evaluates
true against the criteria built from the resource's group, id and
type). -/
theorem c8_matching_characterization (all_alerts : List AlertRule)
    (resource_id resource_type : String) (ids : List String)
    (h : find_matching_alert_ids all_alerts resource_id resource_type =
      .ok ids) (aid : String) :
    aid ∈ ids ↔
      ∃ alert ∈ all_alerts, alert.id = aid ∧
        (∃ scope ∈ alert.scopes,
          pyStartswith scope (pyCasefold resource_id) = true) ∧
        condition_matches resource_id resource_type alert = .ok true := by
  induction all_alerts generalizing ids with
  | nil =>
    simp only [find_matching_alert_ids, Except.ok.injEq] at h
    subst h
    simp
  | cons alert rest ih =>
    simp only [find_matching_alert_ids] at h
    by_cases hsc : scope_matches resource_id alert = true
    · rw [if_pos hsc] at h
      have hscopes : ∃ scope ∈ alert.scopes,
          pyStartswith scope (pyCasefold resource_id) = true := by
        simpa [scope_matches, List.any_eq_true] using hsc
      cases hcm : condition_matches resource_id resource_type alert with
      | error e => rw [hcm] at h; cases h
      | ok b =>
        rw [hcm] at h
        cases hrest : find_matching_alert_ids rest resource_id
            resource_type with
        | error e2 => rw [hrest] at h; cases h
        | ok ids' =>
          rw [hrest] at h
          simp only [Except.ok.injEq] at h
          have hih := ih ids' hrest
          cases b
          · rw [if_neg (by simp)] at h
            subst h
            rw [hih]
            constructor
            · rintro ⟨a, ha, rest⟩
              exact ⟨a, List.mem_cons_of_mem _ ha, rest⟩
            · rintro ⟨a, ha, haid, hsc2, hcm2⟩
              rcases List.mem_cons.mp ha with rfl | ha'
              · rw [hcm] at hcm2
                cases hcm2
              · exact ⟨a, ha', haid, hsc2, hcm2⟩
          · rw [if_pos rfl] at h
            subst h
            rw [List.mem_cons, hih]
            constructor
            · rintro (rfl | ⟨a, ha, rest⟩)
              · exact ⟨alert, List.mem_cons_self _ _, rfl, hscopes, hcm⟩
              · exact ⟨a, List.mem_cons_of_mem _ ha, rest⟩
            · rintro ⟨a, ha, haid, hsc2, hcm2⟩
              rcases List.mem_cons.mp ha with rfl | ha'
              · exact Or.inl haid.symm
              · exact Or.inr ⟨a, ha', haid, hsc2, hcm2⟩
    · rw [if_neg hsc] at h
      have hnosc : ¬ ∃ scope ∈ alert.scopes,
          pyStartswith scope (pyCasefold resource_id) = true := by
        rw [Bool.not_eq_true] at hsc
        simpa [scope_matches, List.any_eq_true] using
          Bool.eq_false_iff.mp hsc
      rw [ih ids h]
      constructor
      · rintro ⟨a, ha, rest⟩
        exact ⟨a, List.mem_cons_of_mem _ ha, rest⟩
      · rintro ⟨a, ha, haid, hsc2, hcm2⟩
        rcases List.mem_cons.mp ha with rfl | ha'
        · exact absurd hsc2 (by simpa using hnosc)
        · exact ⟨a, ha', haid, hsc2, hcm2⟩

/-- Witness for C8: one alert with scope `/subscriptions/s` and no
condition, resource id `/Subscriptions/s/x`: the match list is `["a1"]`
and the characterization applies. -/
theorem c8_witness :
    ∃ alert ∈ ([⟨"a1", ["/subscriptions/s"], none⟩] : List AlertRule),
      alert.id = "a1" ∧
      (∃ scope ∈ alert.scopes,
        pyStartswith scope (pyCasefold "/Subscriptions/s/x") = true) ∧
      condition_matches "/Subscriptions/s/x" "t" alert = .ok true := by
  exact (c8_matching_characterization
    [⟨"a1", ["/subscriptions/s"], none⟩] "/Subscriptions/s/x" "t" ["a1"]
    rfl "a1").mp (List.mem_singleton.mpr rfl)

/-! ## C9: unparsable conditions -/

/-- C9 (counterexample): a numeric condition is not a bool, not a dict
with a combinator, and not a field/equals leaf, so by the claim it should
be a quiet non-match; but `"allOf" in 5` raises an uncaught `TypeError`,
so `find_matching_alert_ids` aborts — losing the second alert, which on
its own would have matched. -/
theorem c9_counterexample :
    find_matching_alert_ids
      [⟨"a1", ["/s"], some (.jnum 5)⟩, ⟨"a2", ["/s"], none⟩]
      "/s/x/y/z/w" "t" = .error .typeErr ∧
    find_matching_alert_ids [⟨"a2", ["/s"], none⟩] "/s/x/y/z/w" "t" =
      .ok ["a2"] := by
  exact ⟨rfl, rfl⟩

/-- C9 (amended): restricted to condition expressions on which the
Python `in`/indexing operations do not themselves blow up — a dict without
an `allOf`/`anyOf` key that is not a well-formed two-key field/equals
leaf, a string not containing a combinator name, or an array not
containing one — the evaluation raises `UnparsableCondition`, the alert
is treated as a non-match, and the matching of the remaining alerts
proceeds unchanged.  (A numeric condition, or a string/array containing a
combinator name, instead raises an uncaught `TypeError` that aborts the
whole matching call, as the counterexample shows.) -/
theorem c9_unparsable_condition_is_nonmatch
    (resource_id resource_type : String)
    (hrid : ∃ rg, (splitSlash resource_id).get? 4 = some rg)
    (aid : String) (scopes : List String) (expr : Jx)
    (hshape :
      (∃ kvs, expr = .jobj kvs ∧
        kvs.any (fun kv => kv.1 == "allOf") = false ∧
        kvs.any (fun kv => kv.1 == "anyOf") = false ∧
        (kvs.length != 2 || !pyTruthy (jlookup kvs "field") ||
          !pyTruthy (jlookup kvs "equals")) = true) ∨
      (∃ s, expr = .jstr s ∧ containsSubstr "allOf" s = false ∧
        containsSubstr "anyOf" s = false) ∨
      (∃ xs, expr = .jarr xs ∧ jarrHasStr xs "allOf" = false ∧
        jarrHasStr xs "anyOf" = false)) :
    (∀ criteria, evaluate_condition expr criteria = .error .unparsable) ∧
    condition_matches resource_id resource_type ⟨aid, scopes, some expr⟩ =
      .ok false ∧
    (∀ rest, find_matching_alert_ids (⟨aid, scopes, some expr⟩ :: rest)
        resource_id resource_type =
      find_matching_alert_ids rest resource_id resource_type) := by
  have heval : ∀ criteria,
      evaluate_condition expr criteria = .error .unparsable := by
    intro criteria
    rcases hshape with ⟨kvs, rfl, hA, hB, hleaf⟩ | ⟨s, rfl, hA, hB⟩ |
      ⟨xs, rfl, hA, hB⟩
    · simp [evaluate_condition, jxSize, evalCondFuel, hA, hB, eval_dict,
        hleaf]
    · simp [evaluate_condition, jxSize, evalCondFuel, evalCondAtomStr,
        hA, hB]
    · simp [evaluate_condition, jxSize, evalCondFuel, hA, hB]
  obtain ⟨rg, hrg⟩ := hrid
  rw [List.get?_eq_getElem?] at hrg
  have hcm : condition_matches resource_id resource_type
      ⟨aid, scopes, some expr⟩ = .ok false := by
    simp [condition_matches, hrg, heval]
  refine ⟨heval, hcm, fun rest => ?_⟩
  conv_lhs => rw [find_matching_alert_ids]
  by_cases hsc : scope_matches resource_id ⟨aid, scopes, some expr⟩ = true
  · rw [if_pos hsc, hcm]
    cases hr : find_matching_alert_ids rest resource_id resource_type with
    | error e => rfl
    | ok ids => rfl
  · rw [if_neg hsc]

/-- Witness for C9: a dict condition with a single bogus key is skipped
as a non-match, leaving the remaining alerts' matching untouched. -/
theorem c9_witness :
    find_matching_alert_ids
      [⟨"a1", ["/s"], some (.jobj [("bogus", .jstr "v")])⟩,
       ⟨"a2", ["/s"], none⟩] "/s/x/y/z/w" "t" =
    find_matching_alert_ids [⟨"a2", ["/s"], none⟩] "/s/x/y/z/w" "t" := by
  exact (c9_unparsable_condition_is_nonmatch "/s/x/y/z/w" "t"
    ⟨"z", rfl⟩ "a1" ["/s"] (.jobj [("bogus", .jstr "v")])
    (Or.inl ⟨[("bogus", .jstr "v")], rfl, rfl, rfl, rfl⟩)).2.2
    [⟨"a2", ["/s"], none⟩]

/-! ## C10: decoded resource type is only the provider namespace -/

/-- A typical virtual-machine resource id. -/
def c10VmId : String :=
  "/subscriptions/sub1/resourceGroups/rg1/providers/Microsoft.Compute/virtualMachines/vm1"

/-- C10: (1) for every slash-delimited id of at least nine segments,
`decode_resource_id` succeeds and its `type` is exactly segment index 6
(the provider namespace); (2) for a virtual-machine id this value is
`"Microsoft.Compute"`, while `get_resource_type` of the same id is the
full pair `"microsoft.compute/virtualmachines"` — different even after
casefolding; (3) the maintenance-event path passes exactly the decoded
(truncated) type to `find_matching_alert_ids` whenever it enqueues an
action. -/
theorem c10_decode_truncates_resource_type :
    (∀ rid : String, 9 ≤ (splitSlash rid).length →
      ∃ d, decode_resource_id rid = .ok d ∧
        (splitSlash rid).get? 6 = some d.type) ∧
    (decode_resource_id c10VmId =
        .ok ⟨"sub1", "rg1", "Microsoft.Compute", "vm1"⟩ ∧
      get_resource_type c10VmId =
        some "microsoft.compute/virtualmachines" ∧
      ¬ (some "Microsoft.Compute" = get_resource_type c10VmId) ∧
      ¬ (some (pyCasefold "Microsoft.Compute") = get_resource_type c10VmId)) ∧
    (∀ (rid statusTag : String) (isPre : Bool) (d : DecodedResourceId)
        (dec : UpdateMgmtDecision),
      decode_resource_id rid = .ok d →
      updatemgmt_decide rid isPre false statusTag = .ok dec →
      dec.enqueuedAction ≠ none → dec.alertResourceType = some d.type) := by
  refine ⟨fun rid hlen => ?_, ⟨rfl, rfl, by decide, by decide⟩,
    fun rid statusTag isPre d dec hd hdec hne => ?_⟩
  · have h2 : (splitSlash rid).get? 2 =
        some ((splitSlash rid).get ⟨2, by omega⟩) := List.get?_eq_get _
    have h4 : (splitSlash rid).get? 4 =
        some ((splitSlash rid).get ⟨4, by omega⟩) := List.get?_eq_get _
    have h8 : (splitSlash rid).get? 8 =
        some ((splitSlash rid).get ⟨8, by omega⟩) := List.get?_eq_get _
    have h6 : (6 : Nat) < (splitSlash rid).length := by omega
    have hdrop : (splitSlash rid).drop 6 =
        (splitSlash rid).get ⟨6, h6⟩ :: (splitSlash rid).drop 7 :=
      List.drop_eq_getElem_cons h6
    refine ⟨⟨(splitSlash rid).get ⟨2, by omega⟩,
      (splitSlash rid).get ⟨4, by omega⟩,
      String.intercalate "/" (((splitSlash rid).drop 6).take 1),
      (splitSlash rid).get ⟨8, by omega⟩⟩, ?_, ?_⟩
    · simp only [decode_resource_id, h2, h4, h8]
    · rw [List.get?_eq_get h6]
      rw [hdrop]
      rfl
  · simp only [updatemgmt_decide, hd] at hdec
    rw [if_neg (by simp)] at hdec
    cases isPre with
    | true =>
      rw [if_pos rfl] at hdec
      simp only [Except.ok.injEq] at hdec
      subst hdec
      rfl
    | false =>
      rw [if_neg (by simp)] at hdec
      by_cases hsub :
          containsSubstr RESOURCE_TAGVAL_STARTED_FOR_MAINTENANCE statusTag =
            true
      · rw [if_pos hsub] at hdec
        simp only [Except.ok.injEq] at hdec
        subst hdec
        rfl
      · rw [if_neg hsub] at hdec
        simp only [Except.ok.injEq] at hdec
        subst hdec
        exact absurd rfl hne

/-- Witness for C10: the general truncation statement applied to the
virtual-machine id: decoding succeeds and its type is segment 6. -/
theorem c10_witness :
    ∃ d, decode_resource_id c10VmId = .ok d ∧
      (splitSlash c10VmId).get? 6 = some d.type := by
  exact c10_decode_truncates_resource_type.1 c10VmId (by decide)

end AzRpms
